import Mathlib

/-!
Verification of `controller.py` (python-k8s-controller).

This file gives a shallow embedding of the rollout-orchestration core of
`src/controller.py` and proves or refutes the frozen claims about it.

Modelling conventions:
* Kubernetes label maps and service selectors (Python dicts of strings) are
  association lists `List (String × String)`; `setLabel` is dict assignment
  (`d[k] = v`), `lookupLabel` is dict lookup.
* Timestamps (`datetime.datetime.utcnow()` instants) are abstract `Nat`
  instants; `strftime "%Y%m%d%H%M%S"` is modelled as `Nat.repr`, an injective
  all-digits rendering of the instant (the real format is also a fixed-width
  digit-only string).
* Python evaluates the default parameter values of a function once, when the module is
  loaded. `ModuleState` carries the instant captured by the default argument
  `dtTimestamp = datetime.datetime.utcnow()` of `getSimpleTimestamp`
  (controller.py line 115), and `getSimpleTimestamp` takes its explicit
  argument as an `Option`, falling back to that captured default.
* The cluster is modelled as a fixed world: the list of deployments the API
  returns for the label selector, and the list of services it returns. API
  transport failures (`ApiException`) are out of scope (the spec treats them
  as an external wrapper, `ApiError`). Mutating calls issued by
  `trigger_smart_rollout` are recorded in an output trace of `Call` events.
* The watch feed consumed by `watch_namespaced_deployment` is, per spec §6, a
  lazy event sequence that is finite exactly when the underlying connection
  closes; it is modelled by the finite list of events actually delivered.
-/

/-! ## Errors (controller.py lines 96-110) -/

/-- The custom error classes raised by controller.py, with their payloads
(the Python messages interpolate exactly these values). -/
inductive K8sError where
  /-- Error `K8sDeploymentNotFoundError`, carrying the name or label selector that
  matched nothing. -/
  | deploymentNotFound (selector : String)
  /-- Error `K8sServiceNotFoundError`, carrying the name or label selector that
  matched nothing. -/
  | serviceNotFound (selector : String)
  /-- Error `K8sBasenameNotUniqueError`, carrying the conflicting deployment name,
  the non-unique basename, and the already-seen deployment name
  (controller.py lines 406-407). -/
  | basenameNotUnique (conflictingName : String) (basename : String)
      (existingName : String)
  deriving DecidableEq, Repr

instance {ε α : Type} [DecidableEq ε] [DecidableEq α] :
    DecidableEq (Except ε α) := fun a b =>
  match a, b with
  | .error x, .error y =>
    if h : x = y then .isTrue (by rw [h]) else .isFalse (by simp [h])
  | .error _, .ok _ => .isFalse (by simp)
  | .ok _, .error _ => .isFalse (by simp)
  | .ok x, .ok y =>
    if h : x = y then .isTrue (by rw [h]) else .isFalse (by simp [h])

/-! ## Data model (Kubernetes object shapes used by controller.py) -/

/-- Field `metadata` of a deployment: name, labels dict, resource_version. -/
structure ObjectMeta where
  name : String
  labels : List (String × String)
  resource_version : String
  deriving DecidableEq, Repr

/-- Field `spec.template.metadata`: the labels dict of the pod template. -/
structure PodTemplateMeta where
  labels : List (String × String)
  deriving DecidableEq, Repr

/-- A container of the pod template; only its image matters here (one of the
"other fields" that duplication must copy unchanged). -/
structure Container where
  image : String
  deriving DecidableEq, Repr

/-- Field `spec.template`: pod template metadata plus its pod spec (containers). -/
structure PodTemplate where
  metadata : PodTemplateMeta
  containers : List Container
  deriving DecidableEq, Repr

/-- Field `spec` of a deployment: replica count, strategy, pod template. -/
structure DeploymentSpec where
  replicas : Option Int
  strategy : String
  template : PodTemplate
  deriving DecidableEq, Repr

/-- Field `status` of a deployment: `ready_replicas` and `replicas` may each be
absent (`None`) while the deployment is starting up. -/
structure DeploymentStatus where
  ready_replicas : Option Int
  replicas : Option Int
  deriving DecidableEq, Repr

/-- A deployment object as controller.py reads it. -/
structure Deployment where
  metadata : ObjectMeta
  spec : DeploymentSpec
  status : DeploymentStatus
  deriving DecidableEq, Repr

/-- Field `metadata` of a service. -/
structure ServiceMeta where
  name : String
  deriving DecidableEq, Repr

/-- Field `spec` of a service: its selector dict. -/
structure ServiceSpec where
  selector : List (String × String)
  deriving DecidableEq, Repr

/-- A service object as controller.py reads it. -/
structure Service where
  metadata : ServiceMeta
  spec : ServiceSpec
  deriving DecidableEq, Repr

/-! ## Label dict operations (Python dict assignment and lookup) -/

/-- Python dict assignment `d[k] = v` on an association list: overwrite the
binding of `k` if present, else append it. -/
def setLabel : List (String × String) → String → String → List (String × String)
  | [], k, v => [(k, v)]
  | (k0, v0) :: rest, k, v =>
    if k0 = k then (k0, v) :: rest else (k0, v0) :: setLabel rest k v

/-- Python dict lookup `d.get(k)` on an association list. -/
def lookupLabel : List (String × String) → String → Option String
  | [], _ => none
  | (k0, v0) :: rest, k => if k0 = k then some v0 else lookupLabel rest k

/-! ## Resource naming (controller.py lines 112-116 and 252-261) -/

/-- The moment the Python module was imported. Python evaluates default
parameter values at definition time, so the default
`dtTimestamp = datetime.datetime.utcnow()` of `getSimpleTimestamp`
(controller.py line 115) is this one instant, captured once per process. -/
structure ModuleState where
  /-- The instant datetime.datetime.utcnow() evaluated when line 115 ran. -/
  loadTimeDefault : Nat
  deriving DecidableEq, Repr

/-- Python `getSimpleTimestamp(dtTimestamp = datetime.datetime.utcnow(), format = "%Y%m%d%H%M%S")`
(controller.py line 115-116). A call site passing no argument (`none`) gets
the module-load-time default; `strftime` of the chosen instant is modelled by
`Nat.repr`. -/
def getSimpleTimestamp (m : ModuleState) (dtTimestamp : Option Nat) : String :=
  Nat.repr (dtTimestamp.getD m.loadTimeDefault)

/-- Core of `getDeploymentBaseName`: the Python re.sub of the regex -\d+$ by
the empty string on the
character list. The regex matches a dash followed by a maximal nonempty run of
trailing digits; if that pattern is present at the end of the string it is
deleted, otherwise the name is unchanged. -/
def stripVersionSuffix (cs : List Char) : List Char :=
  if cs.reverse.takeWhile Char.isDigit ≠ [] ∧
      (cs.reverse.dropWhile Char.isDigit).head? = some '-' then
    (cs.reverse.dropWhile Char.isDigit).tail.reverse
  else cs

/-- Python `getDeploymentBaseName(name)` (controller.py lines 252-261):
re.sub of the regex -\d+$ by the empty string in the name. -/
def getDeploymentBaseName (name : String) : String :=
  ⟨stripVersionSuffix name.data⟩

/-- Does the name end in the pattern `-<digits>` that
`getDeploymentBaseName` strips (the `re.sub` pattern matched)? -/
def endsInDashDigits (name : String) : Bool :=
  let r := name.data.reverse
  decide (r.takeWhile Char.isDigit ≠ [] ∧
    (r.dropWhile Char.isDigit).head? = some '-')

/-! ## Spec duplicator (controller.py lines 263-271) -/

/-- Python `duplicate_deployment_config(body, simpleTimestamp)` (controller.py
lines 263-271): deep-copy the deployment, rename it to
`"%s-%s" % (getDeploymentBaseName(body.metadata.name), simpleTimestamp)`, set
the `patch` label on the deployment and on its pod template, and clear
`metadata.resource_version` to the empty string. Lean values are immutable, so
the deep copy is implicit; `duplicate_deployment_config_heap` below makes the
copy explicit against a mutable-dict heap. -/
def duplicate_deployment_config (body : Deployment) (simpleTimestamp : String) :
    Deployment :=
  let newName := getDeploymentBaseName body.metadata.name
  { body with
    metadata :=
      { body.metadata with
        name := newName ++ "-" ++ simpleTimestamp
        labels := setLabel body.metadata.labels "patch" simpleTimestamp
        resource_version := "" }
    spec :=
      { body.spec with
        template :=
          { body.spec.template with
            metadata :=
              { labels := setLabel body.spec.template.metadata.labels "patch"
                  simpleTimestamp } } } }

/-! ## Readiness watcher (controller.py lines 337-358) -/

/-- One event delivered by the watch feed: the Python dict entries type and
object of the event. -/
structure WatchEvent where
  eventType : String
  object : Deployment
  deriving DecidableEq, Repr

/-- The readiness test applied to the deployment of an event (controller.py lines
352-354): `ready_replicas is not None and replicas is not None and
ready_replicas >= replicas`. -/
def deploymentReady (d : Deployment) : Bool :=
  match d.status.ready_replicas, d.status.replicas with
  | some ready, some total => ready ≥ total
  | _, _ => false

/-- Python `watch_namespaced_deployment(name, ...)` (controller.py lines 337-358),
run against the finite list of events the feed delivers before the underlying
connection closes (spec §6: the feed is finite exactly when the connection
closes). The Python `for` loop returns the deployment of the first event whose
object is the named deployment and passes the readiness test; if the feed ends
first, the loop falls off the end of the function, which returns `None`. -/
def watch_namespaced_deployment (name : String) :
    List WatchEvent → Option Deployment
  | [] => none
  | event :: stream =>
    let deployment := event.object
    if deployment.metadata.name = name then
      if deploymentReady deployment then some deployment
      else watch_namespaced_deployment name stream
    else watch_namespaced_deployment name stream

/-! ## Uniqueness validator (controller.py lines 393-409) -/

/-- The loop body of `check_deployments`: `basenames` is the Python dict
mapping each seen basename to the first deployment name that produced it; a
deployment whose basename is already a key aborts with
`K8sBasenameNotUniqueError(conflictingName, basename, existingName)`. -/
def checkDeploymentsGo :
    List Deployment → List (String × String) → Except K8sError Unit
  | [], _ => .ok ()
  | dep :: rest, basenames =>
    match lookupLabel basenames (getDeploymentBaseName dep.metadata.name) with
    | some existingName =>
      .error (.basenameNotUnique dep.metadata.name
        (getDeploymentBaseName dep.metadata.name) existingName)
    | none =>
      checkDeploymentsGo rest
        ((getDeploymentBaseName dep.metadata.name, dep.metadata.name)
          :: basenames)

/-- Python `check_deployments(deployments)` (controller.py lines 393-409): scan the
deployments in input order, recording basenames in a dict, and raise
`K8sBasenameNotUniqueError` at the first deployment whose basename was
already recorded. -/
def check_deployments (deployments : List Deployment) : Except K8sError Unit :=
  checkDeploymentsGo deployments []

/-! ## Resource locator (controller.py lines 184-232 and 273-315)

The cluster world is held fixed for the duration of a call: each locator takes
the list of objects the API list endpoint returns for its filter. -/

/-- Python `get_namespaced_deployment(name, ...)` (controller.py lines 184-210):
list with field selector `metadata.name=name`, raise
`K8sDeploymentNotFoundError` when fewer than one item comes back, else return
`items[0]`. `matching` is the API result list for that field selector. -/
def get_namespaced_deployment (name : String) (matching : List Deployment) :
    Except K8sError Deployment :=
  match matching with
  | [] => .error (.deploymentNotFound name)
  | d :: _ => .ok d

/-- Python `get_namespaced_deployments(label_selector, ...)` (controller.py lines
212-232): list by label selector, raise `K8sDeploymentNotFoundError` when the
result is empty, else return the whole item list. `matching` is the API
result list for that label selector. -/
def get_namespaced_deployments (label_selector : String)
    (matching : List Deployment) : Except K8sError (List Deployment) :=
  if matching.length < 1 then .error (.deploymentNotFound label_selector)
  else .ok matching

/-- Python `get_namespaced_service(name, ...)` (controller.py lines 273-293): list
with field selector `metadata.name=name`, raise `K8sServiceNotFoundError` when
fewer than one item comes back, else return `items[0]`. The field selector is
modelled by filtering the service list of the world by exact name. -/
def get_namespaced_service (name : String) (world : List Service) :
    Except K8sError Service :=
  match world.filter (fun s => s.metadata.name = name) with
  | [] => .error (.serviceNotFound name)
  | s :: _ => .ok s

/-- Python `get_namespaced_services(label_selector, ...)` (controller.py lines
295-315): list by label selector, raise `K8sServiceNotFoundError` when the
result is empty, else return the whole item list. -/
def get_namespaced_services (label_selector : String)
    (matching : List Service) : Except K8sError (List Service) :=
  if matching.length < 1 then .error (.serviceNotFound label_selector)
  else .ok matching

/-! ## Service cutover (controller.py lines 317-335) -/

/-- Python `patch_namespaced_service(name, simpleTimestamp, ...)` (controller.py
lines 317-335): re-fetch the service by exact name (propagating
`K8sServiceNotFoundError`), set `spec.selector["patch"] = simpleTimestamp`,
and send the patch; the patched service is returned. `world` is the fixed
service world the exact-name lookup runs against. -/
def patch_namespaced_service (name : String) (simpleTimestamp : String)
    (world : List Service) : Except K8sError Service :=
  match get_namespaced_service name world with
  | .error e => .error e
  | .ok serviceBody =>
    .ok { serviceBody with
          spec := { selector :=
            setLabel serviceBody.spec.selector "patch" simpleTimestamp } }

/-! ## Single duplication entry point (controller.py lines 360-383) -/

/-- Python `duplicate_deployment(name, ...)` (controller.py lines 360-383): locate
the deployment by exact name (propagating `K8sDeploymentNotFoundError`), take
`timestamp = getSimpleTimestamp()` — note: no argument, so the module-load
default instant is used — duplicate the spec with it, create the copy, and
return the created deployment. `matching` is the API result list for the
exact-name lookup. -/
def duplicate_deployment (m : ModuleState) (name : String)
    (matching : List Deployment) : Except K8sError Deployment :=
  match get_namespaced_deployment name matching with
  | .error e => .error e
  | .ok dep =>
    let timestamp := getSimpleTimestamp m none
    let dep_copy := duplicate_deployment_config dep timestamp
    .ok dep_copy

/-! ## Smart rollout orchestrator (controller.py lines 411-461) -/

/-- One cluster API call issued by `trigger_smart_rollout`, in the order the
calls are issued. `watchDeployment` stands for the blocking
`watch_namespaced_deployment` call having been entered and completed (its
return value is discarded by the source, line 442). -/
inductive Call where
  | listDeployments (selector : String)
  | listServices (selector : String)
  | createDeployment (name : String)
  | watchDeployment (name : String)
  | patchService (name : String) (patchLabel : String)
  | deleteDeployment (name : String)
  deriving DecidableEq, Repr

/-- The duplicate-create-watch loop of `trigger_smart_rollout` (controller.py
lines 436-443): for each discovered deployment, duplicate its spec with the
batch timestamp, create the copy, then block watching it until ready. -/
def rolloutCreateLoop (deps : List Deployment) (simpleTimestamp : String) :
    List Call :=
  deps.flatMap fun dep =>
    let dep_copy := duplicate_deployment_config dep simpleTimestamp
    [Call.createDeployment dep_copy.metadata.name,
     Call.watchDeployment dep_copy.metadata.name]

/-- The service-patch loop of `trigger_smart_rollout` (controller.py lines
448-452): for each discovered service, call `patch_namespaced_service`; the
cutover patch for a service is issued only when its re-fetch succeeded, and an
error aborts the loop and propagates. -/
def rolloutPatchLoop :
    List Service → List Service → String → Except K8sError Unit × List Call
  | [], _, _ => (.ok (), [])
  | svc :: rest, world, simpleTimestamp =>
    match patch_namespaced_service svc.metadata.name simpleTimestamp world with
    | .error e => (.error e, [])
    | .ok _ =>
      let next := rolloutPatchLoop rest world simpleTimestamp
      (next.1, Call.patchService svc.metadata.name simpleTimestamp :: next.2)

/-- Python `trigger_smart_rollout(label_selector, ..., cleanup)` (controller.py lines
411-461), returning its outcome and the trace of cluster API calls it issued,
in order. `deps` is the deployment list the world returns for the label
selector, `services` the service list it returns for it. Source order: take
`simpleTimestamp = getSimpleTimestamp()` (module-load default instant);
list deployments (error when empty); `check_deployments`; the
create-and-watch loop; list services (error when empty); the patch loop;
then, when `cleanup` is set, delete every originally discovered deployment by
its exact name. -/
def trigger_smart_rollout (m : ModuleState) (label_selector : String)
    (deps : List Deployment) (services : List Service) (cleanup : Bool) :
    Except K8sError Unit × List Call :=
  let simpleTimestamp := getSimpleTimestamp m none
  match get_namespaced_deployments label_selector deps with
  | .error e => (.error e, [Call.listDeployments label_selector])
  | .ok deps =>
    match check_deployments deps with
    | .error e => (.error e, [Call.listDeployments label_selector])
    | .ok _ =>
      let preSvcTrace := Call.listDeployments label_selector ::
        rolloutCreateLoop deps simpleTimestamp ++
          [Call.listServices label_selector]
      match get_namespaced_services label_selector services with
      | .error e => (.error e, preSvcTrace)
      | .ok svcs =>
        let patched := rolloutPatchLoop svcs svcs simpleTimestamp
        let patchedTrace := preSvcTrace ++ patched.2
        match patched.1 with
        | .error e => (.error e, patchedTrace)
        | .ok _ =>
          if cleanup then
            (.ok (), patchedTrace ++
              deps.map fun dep => Call.deleteDeployment dep.metadata.name)
          else (.ok (), patchedTrace)

/-- Is this call one of the three cluster-mutating calls (create, patch,
delete)? List calls and the watch are read-only. -/
def isMutatingCall : Call → Bool
  | .createDeployment _ => true
  | .patchService _ _ => true
  | .deleteDeployment _ => true
  | _ => false

/-- Is this call a `create_namespaced_deployment`? -/
def isCreateCall : Call → Bool
  | .createDeployment _ => true
  | _ => false

/-- Is this call a completed `watch_namespaced_deployment` wait? -/
def isWatchCall : Call → Bool
  | .watchDeployment _ => true
  | _ => false

/-- Is this call a `patch_namespaced_service` cutover patch? -/
def isPatchServiceCall : Call → Bool
  | .patchService _ _ => true
  | _ => false

/-- Is this call a `delete_namespaced_deployment`? -/
def isDeleteCall : Call → Bool
  | .deleteDeployment _ => true
  | _ => false

/-! ## Mutable-object view of the spec duplicator (for the frame property)

Lean values are immutable, so `duplicate_deployment_config` above cannot even
express the question whether the source mutates its input. This second view of
controller.py lines 263-271 makes the Python reference semantics explicit: label
dicts and metadata objects live in an address-indexed heap, a deployment value
is a pair of references into it, `copy.deepcopy` allocates fresh addresses,
and every assignment of the source is a store to an address. -/

/-- A mutable Python metadata object: plain string attributes plus a
reference to its mutable `labels` dict. -/
structure MetaObj where
  name : String
  labelsAddr : Nat
  resource_version : String
  deriving DecidableEq, Repr

/-- The Python object store: a heap of metadata objects, a heap of label
dicts, and the next fresh address (every address `< nextAddr` counts as
allocated, fresh allocations start at `nextAddr`). -/
structure PyState where
  metaHeap : Nat → MetaObj
  dictHeap : Nat → List (String × String)
  nextAddr : Nat

/-- A deployment as a Python object graph: a reference to its `metadata`
object (which in turn references the top-level labels dict) and a reference to
its `spec.template.metadata.labels` dict. -/
structure DeploymentObj where
  metaAddr : Nat
  tmplLabelsAddr : Nat
  deriving DecidableEq, Repr

/-- Store `v` at address `a` of heap `h`. -/
def heapUpdate {α : Type} (h : Nat → α) (a : Nat) (v : α) : Nat → α :=
  fun x => if x = a then v else h x

/-- Python `duplicate_deployment_config(body, simpleTimestamp)` (controller.py
lines 263-271) against the object store, statement by statement:
`newBody = copy.deepcopy(body)` allocates a fresh metadata object and fresh
copies of both label dicts; then
`newBody.metadata.name = "%s-%s" % (newName, simpleTimestamp)`,
`newBody.metadata.labels["patch"] = simpleTimestamp`,
`newBody.spec.template.metadata.labels["patch"] = simpleTimestamp` and
`newBody.metadata.resource_version = ""` each store through the references
of `newBody`. Returns the new object and the post-call store. -/
def duplicate_deployment_config_heap (s : PyState) (body : DeploymentObj)
    (simpleTimestamp : String) : DeploymentObj × PyState :=
  let oldMeta := s.metaHeap body.metaAddr
  let newMetaAddr := s.nextAddr
  let newLabelsAddr := s.nextAddr + 1
  let newTmplLabelsAddr := s.nextAddr + 2
  let s1 : PyState :=
    { metaHeap := heapUpdate s.metaHeap newMetaAddr
        { oldMeta with labelsAddr := newLabelsAddr }
      dictHeap := heapUpdate
        (heapUpdate s.dictHeap newLabelsAddr (s.dictHeap oldMeta.labelsAddr))
        newTmplLabelsAddr (s.dictHeap body.tmplLabelsAddr)
      nextAddr := s.nextAddr + 3 }
  let newBody : DeploymentObj := ⟨newMetaAddr, newTmplLabelsAddr⟩
  let newName := getDeploymentBaseName (s.metaHeap body.metaAddr).name
  let s2 : PyState := { s1 with
    metaHeap := heapUpdate s1.metaHeap newMetaAddr
      { s1.metaHeap newMetaAddr with
        name := newName ++ "-" ++ simpleTimestamp } }
  let la := (s2.metaHeap newMetaAddr).labelsAddr
  let s3 : PyState := { s2 with
    dictHeap := heapUpdate s2.dictHeap la
      (setLabel (s2.dictHeap la) "patch" simpleTimestamp) }
  let s4 : PyState := { s3 with
    dictHeap := heapUpdate s3.dictHeap newBody.tmplLabelsAddr
      (setLabel (s3.dictHeap newBody.tmplLabelsAddr) "patch" simpleTimestamp) }
  let s5 : PyState := { s4 with
    metaHeap := heapUpdate s4.metaHeap newMetaAddr
      { s4.metaHeap newMetaAddr with resource_version := "" } }
  (newBody, s5)

/-- The combined guard on which `watch_namespaced_deployment` returns: the
event is for the named deployment and its deployment passes the readiness
test. -/
def watchEventMatches (name : String) (e : WatchEvent) : Bool :=
  (e.object.metadata.name = name : Bool) && deploymentReady e.object

/-! ## Concrete test fixtures (used by counterexamples and witnesses) -/

/-- A label map shared by the test fixtures. -/
def testLabels : List (String × String) := [("app", "myapp")]

/-- A ready two-replica deployment named `app-1`. -/
def testDeployment : Deployment :=
  { metadata := { name := "app-1", labels := testLabels, resource_version := "42" }
    spec := { replicas := some 2, strategy := "RollingUpdate"
              template := { metadata := { labels := testLabels }
                            containers := [{ image := "img:v1" }] } }
    status := { ready_replicas := some 2, replicas := some 2 } }

/-- A second deployment, named `app-2`: same basename `app` as
`testDeployment`. -/
def testDeployment2 : Deployment :=
  { metadata := { name := "app-2", labels := testLabels, resource_version := "43" }
    spec := { replicas := some 1, strategy := "RollingUpdate"
              template := { metadata := { labels := testLabels }
                            containers := [{ image := "img:v2" }] } }
    status := { ready_replicas := some 1, replicas := some 1 } }

/-- A service selecting the test label. -/
def testService : Service :=
  { metadata := { name := "mysvc" }, spec := { selector := testLabels } }

/-- A concrete object store: three allocated addresses (0: the metadata
object, whose labels dict is at 1; 2: the pod-template labels dict). -/
def testPyState : PyState :=
  { metaHeap := fun _ => { name := "app-1", labelsAddr := 1, resource_version := "42" }
    dictHeap := fun _ => [("app", "myapp")]
    nextAddr := 3 }

/-- The deployment object rooted at the store above. -/
def testDeploymentObj : DeploymentObj := { metaAddr := 0, tmplLabelsAddr := 2 }

/-- A watch event reporting the ready `app-1` fixture. -/
def testReadyEvent : WatchEvent :=
  { eventType := "MODIFIED", object := testDeployment }

/-- A watch event for the other deployment, `app-2`. -/
def testOtherEvent : WatchEvent :=
  { eventType := "MODIFIED", object := testDeployment2 }

/-! # Theorems -/

/-! ## Label dict lemmas -/

theorem lookupLabel_setLabel_same (l : List (String × String)) (k v : String) :
    lookupLabel (setLabel l k v) k = some v := by
  induction l with
  | nil => simp [setLabel, lookupLabel]
  | cons hd tl ih =>
    obtain ⟨k0, v0⟩ := hd
    by_cases h : k0 = k
    · simp [setLabel, lookupLabel, h]
    · simp [setLabel, lookupLabel, h, ih]

theorem lookupLabel_setLabel_other (l : List (String × String)) (k v k2 : String)
    (h : k2 ≠ k) : lookupLabel (setLabel l k v) k2 = lookupLabel l k2 := by
  have hks : k ≠ k2 := Ne.symm h
  induction l with
  | nil => simp [setLabel, lookupLabel, hks]
  | cons hd tl ih =>
    obtain ⟨k0, v0⟩ := hd
    by_cases hk : k0 = k
    · subst hk
      simp [setLabel, lookupLabel, hks]
    · by_cases hk2 : k0 = k2
      · subst hk2
        simp [setLabel, lookupLabel, hk]
      · simp [setLabel, lookupLabel, hk, hk2, ih]

/-! ## Naming lemmas -/

example : getDeploymentBaseName "deployment-basename-20191011134834"
    = "deployment-basename" := by decide
example : getDeploymentBaseName "app-20191011134834" = "app" := by decide
example : getDeploymentBaseName "app" = "app" := by decide
example : getDeploymentBaseName "app-v2" = "app-v2" := by decide
example : getDeploymentBaseName "app-1-2" = "app-1" := by decide
example : getDeploymentBaseName "app-1" = "app" := by decide

theorem takeWhile_append_all {α : Type} (p : α → Bool) (l1 l2 : List α)
    (h : ∀ a ∈ l1, p a = true) :
    (l1 ++ l2).takeWhile p = l1 ++ l2.takeWhile p := by
  induction l1 with
  | nil => simp
  | cons a l ih =>
    have ha : p a = true := h a (by simp)
    simp only [List.cons_append, List.takeWhile_cons, ha, if_true]
    rw [ih fun x hx => h x (by simp [hx])]

theorem dropWhile_append_all {α : Type} (p : α → Bool) (l1 l2 : List α)
    (h : ∀ a ∈ l1, p a = true) :
    (l1 ++ l2).dropWhile p = l2.dropWhile p := by
  induction l1 with
  | nil => simp
  | cons a l ih =>
    have ha : p a = true := h a (by simp)
    simp only [List.cons_append, List.dropWhile_cons, ha, if_true]
    exact ih fun x hx => h x (by simp [hx])

/-- Stripping the freshly appended `-<digits>` suffix recovers the base:
the core round-trip behind versioned naming. -/
theorem stripVersionSuffix_append (b t : List Char) (ht : t ≠ [])
    (hd : ∀ c ∈ t, c.isDigit = true) :
    stripVersionSuffix (b ++ '-' :: t) = b := by
  have hrev : (b ++ '-' :: t).reverse = t.reverse ++ '-' :: b.reverse := by
    simp
  have hdrev : ∀ c ∈ t.reverse, c.isDigit = true := by
    intro c hc
    exact hd c (List.mem_reverse.mp hc)
  have hdash : ('-' : Char).isDigit = false := by decide
  unfold stripVersionSuffix
  rw [hrev, takeWhile_append_all _ _ _ hdrev, dropWhile_append_all _ _ _ hdrev]
  simp only [List.takeWhile_cons, List.dropWhile_cons, hdash]
  have hne : t.reverse ++ ([] : List Char) ≠ [] := by
    simp [ht]
  rw [if_pos ⟨hne, rfl⟩]
  simp

/-- Appending a fresh nonempty all-digit suffix and stripping round-trips. -/
theorem getDeploymentBaseName_append_version (b t : String) (ht : t.data ≠ [])
    (hd : ∀ c ∈ t.data, c.isDigit = true) :
    getDeploymentBaseName (b ++ "-" ++ t) = b := by
  have hdata : (b ++ "-" ++ t).data = b.data ++ '-' :: t.data := by
    cases b with
    | mk bl =>
      cases t with
      | mk tl => simp [String.instAppend, String.append]
  unfold getDeploymentBaseName
  rw [hdata, stripVersionSuffix_append b.data t.data ht hd]

/-- When the name does not end in `-<digits>`, the regex does not match and
`getDeploymentBaseName` returns the name unchanged. -/
theorem getDeploymentBaseName_of_not_endsInDashDigits (x : String)
    (h : endsInDashDigits x = false) : getDeploymentBaseName x = x := by
  unfold endsInDashDigits at h
  unfold getDeploymentBaseName stripVersionSuffix
  rw [if_neg (of_decide_eq_false h)]

/-- Claim C3, counterexample: `getDeploymentBaseName` is not idempotent on
every string. On `"app-1-2"` one application strips only the final `-2`
(the regex `-\d+$` matches only the last dash-digits group), leaving
`"app-1"`, and a second application strips again, to `"app"`. -/
theorem claim_C3_counterexample :
    getDeploymentBaseName (getDeploymentBaseName "app-1-2")
      ≠ getDeploymentBaseName "app-1-2" := by decide

/-- Claim C3, amended: `getDeploymentBaseName` strips a trailing
dash-plus-digits suffix if present and otherwise returns the name unchanged,
and it is idempotent on every string whose result after one strip does not
itself end in a dash-plus-digits suffix (all the examples of the spec are of this
form); the three concrete examples hold as stated. -/
theorem claim_C3_amended (x : String)
    (h : endsInDashDigits (getDeploymentBaseName x) = false) :
    getDeploymentBaseName (getDeploymentBaseName x) = getDeploymentBaseName x ∧
    getDeploymentBaseName "app-20191011134834" = "app" ∧
    getDeploymentBaseName "app" = "app" ∧
    getDeploymentBaseName "app-v2" = "app-v2" :=
  ⟨getDeploymentBaseName_of_not_endsInDashDigits _ h, by decide, by decide,
   by decide⟩

/-- Claim C3, witness: the amended idempotence applied at
`"app-20191011134834"`. -/
theorem claim_C3_witness :
    endsInDashDigits (getDeploymentBaseName "app-20191011134834") = false ∧
    getDeploymentBaseName (getDeploymentBaseName "app-20191011134834")
      = getDeploymentBaseName "app-20191011134834" :=
  ⟨by decide, (claim_C3_amended "app-20191011134834" (by decide)).1⟩

/-- Claim C10, confirmed: duplication preserves the base name — for every
deployment and every nonempty all-digit timestamp string `t`, stripping the
duplicated deployment name gives the base name of the original, because the
duplicated name is `baseName ++ "-" ++ t` and the strip removes exactly the
freshly appended `-t`. -/
theorem claim_C10 (s : Deployment) (t : String) (ht : t ≠ "")
    (hd : ∀ c ∈ t.data, c.isDigit = true) :
    getDeploymentBaseName (duplicate_deployment_config s t).metadata.name
      = getDeploymentBaseName s.metadata.name := by
  have hname : (duplicate_deployment_config s t).metadata.name
      = getDeploymentBaseName s.metadata.name ++ "-" ++ t := rfl
  rw [hname]
  apply getDeploymentBaseName_append_version _ _ _ hd
  intro hnil
  apply ht
  cases t with
  | mk tl =>
    simp only at hnil
    rw [hnil]

/-- Claim C10, witness: applied to the `app-1` fixture and the timestamp
`"20191011134834"`. -/
theorem claim_C10_witness :
    ("20191011134834" : String) ≠ "" ∧
    getDeploymentBaseName
        (duplicate_deployment_config testDeployment "20191011134834").metadata.name
      = getDeploymentBaseName testDeployment.metadata.name :=
  ⟨by decide,
   claim_C10 testDeployment "20191011134834" (by decide) (by decide)⟩

/-- Claim C7, confirmed: the duplicated spec name is
`baseName ++ "-" ++ t`, its resource version is cleared to the empty string,
both its label maps bind `patch` to `t`, and every other field — replica
count, strategy, containers, status, and every non-`patch` label entry — is
copied unchanged. -/
theorem claim_C7 (s : Deployment) (t : String) :
    (duplicate_deployment_config s t).metadata.name
        = getDeploymentBaseName s.metadata.name ++ "-" ++ t ∧
    (duplicate_deployment_config s t).metadata.resource_version = "" ∧
    lookupLabel (duplicate_deployment_config s t).metadata.labels "patch"
        = some t ∧
    lookupLabel (duplicate_deployment_config s t).spec.template.metadata.labels
        "patch" = some t ∧
    (duplicate_deployment_config s t).spec.replicas = s.spec.replicas ∧
    (duplicate_deployment_config s t).spec.strategy = s.spec.strategy ∧
    (duplicate_deployment_config s t).spec.template.containers
        = s.spec.template.containers ∧
    (duplicate_deployment_config s t).status = s.status ∧
    ∀ k, k ≠ "patch" →
      lookupLabel (duplicate_deployment_config s t).metadata.labels k
          = lookupLabel s.metadata.labels k ∧
      lookupLabel
          (duplicate_deployment_config s t).spec.template.metadata.labels k
          = lookupLabel s.spec.template.metadata.labels k :=
  ⟨rfl, rfl, lookupLabel_setLabel_same _ _ _, lookupLabel_setLabel_same _ _ _,
   rfl, rfl, rfl, rfl,
   fun _ hk => ⟨lookupLabel_setLabel_other _ _ _ _ hk,
     lookupLabel_setLabel_other _ _ _ _ hk⟩⟩

/-- Claim C7, witness: the non-`patch` label `"app"` of the fixture is copied
unchanged. -/
theorem claim_C7_witness :
    ("app" : String) ≠ "patch" ∧
    lookupLabel
        (duplicate_deployment_config testDeployment "20191011134834").metadata.labels
        "app"
      = lookupLabel testDeployment.metadata.labels "app" :=
  ⟨by decide,
   ((claim_C7 testDeployment "20191011134834").2.2.2.2.2.2.2.2 "app"
       (by decide)).1⟩

/-- Claim C2, code bug: the default argument
`dtTimestamp = datetime.datetime.utcnow()` of `getSimpleTimestamp` is evaluated once, when the module
is imported, and both `duplicate_deployment` (line 376) and
`trigger_smart_rollout` (line 426) call `getSimpleTimestamp()` with no
argument. With the module imported at instant 100 and the call made when the
current time is 200, every derived name embeds `100`, not the invocation-time
`200` the claim requires. -/
theorem claim_C2_code_bug :
    getSimpleTimestamp { loadTimeDefault := 100 } none = Nat.repr 100 ∧
    (duplicate_deployment { loadTimeDefault := 100 } "app-1"
        [testDeployment]).map (fun d => d.metadata.name)
      = .ok ("app-" ++ Nat.repr 100) ∧
    Call.createDeployment ("app-" ++ Nat.repr 100) ∈
      (trigger_smart_rollout { loadTimeDefault := 100 } "app=myapp"
        [testDeployment] [testService] true).2 ∧
    "app-" ++ Nat.repr 100 ≠ "app-" ++ Nat.repr 200 := by decide

/-! ## Readiness-watch lemmas -/

theorem watch_cons_of_no_match (name : String) (e : WatchEvent)
    (l : List WatchEvent) (h : watchEventMatches name e = false) :
    watch_namespaced_deployment name (e :: l)
      = watch_namespaced_deployment name l := by
  unfold watch_namespaced_deployment
  by_cases hn : e.object.metadata.name = name
  · have hr : deploymentReady e.object = false := by
      unfold watchEventMatches at h
      simpa [hn] using h
    simp [hn, hr]
    cases l <;> rfl
  · simp [hn]
    cases l <;> rfl

theorem watch_cons_of_match (name : String) (e : WatchEvent)
    (l : List WatchEvent) (h : watchEventMatches name e = true) :
    watch_namespaced_deployment name (e :: l) = some e.object := by
  unfold watchEventMatches at h
  rw [Bool.and_eq_true, decide_eq_true_eq] at h
  unfold watch_namespaced_deployment
  simp [h.1, h.2]

/-- The watch returns the object of the first matching event of the feed. -/
theorem watch_first_match (name : String) (pre : List WatchEvent)
    (e : WatchEvent) (rest : List WatchEvent)
    (hpre : ∀ x ∈ pre, watchEventMatches name x = false)
    (hm : watchEventMatches name e = true) :
    watch_namespaced_deployment name (pre ++ e :: rest) = some e.object := by
  induction pre with
  | nil => exact watch_cons_of_match name e rest hm
  | cons a l ih =>
    rw [List.cons_append, watch_cons_of_no_match name a _ (hpre a (by simp))]
    exact ih fun x hx => hpre x (by simp [hx])

/-- Claim C4, counterexample: when the event feed ends (the underlying
connection closes, spec §6) without an event matching the named deployment,
the `for` loop of `watch_namespaced_deployment` runs out of events and the
function returns — with no deployment (`None`) — rather than suspending
indefinitely as the claim states. -/
theorem claim_C4_counterexample :
    watch_namespaced_deployment "app-100" [testReadyEvent, testOtherEvent]
      = none := by decide

/-- Claim C4, amended: `watch_namespaced_deployment` returns a deployment
exactly when it first observes an event for the named deployment with both
replica counts present and `ready_replicas >= replicas`, and it returns that
deployment of that event; but if the feed ends without such a matching event, the
call returns `None` instead of suspending. -/
theorem claim_C4_amended (name : String) (stream : List WatchEvent) :
    (watch_namespaced_deployment name stream = none ↔
      ∀ e ∈ stream, watchEventMatches name e = false) ∧
    (∀ pre e rest, stream = pre ++ e :: rest →
      (∀ x ∈ pre, watchEventMatches name x = false) →
      watchEventMatches name e = true →
      watch_namespaced_deployment name stream = some e.object) := by
  constructor
  · induction stream with
    | nil => simp [watch_namespaced_deployment]
    | cons a l ih =>
      by_cases ha : watchEventMatches name a = true
      · rw [watch_cons_of_match name a l ha]
        constructor
        · intro hcon
          cases hcon
        · intro hall
          rw [hall a (by simp)] at ha
          cases ha
      · have ha2 : watchEventMatches name a = false := by
          simpa using ha
        rw [watch_cons_of_no_match name a l ha2]
        constructor
        · intro hnone e he
          rcases List.mem_cons.mp he with rfl | hel
          · exact ha2
          · exact (ih.mp hnone) e hel
        · intro hall
          exact ih.mpr fun e he => hall e (by simp [he])
  · intro pre e rest heq hpre hm
    rw [heq]
    exact watch_first_match name pre e rest hpre hm

/-- Claim C4, witness: on a feed whose second event is the first match, the
watch returns the deployment of that event. -/
theorem claim_C4_witness :
    ([testOtherEvent, testReadyEvent] : List WatchEvent)
        = [testOtherEvent] ++ testReadyEvent :: [] ∧
    watchEventMatches "app-1" testOtherEvent = false ∧
    watchEventMatches "app-1" testReadyEvent = true ∧
    watch_namespaced_deployment "app-1" [testOtherEvent, testReadyEvent]
      = some testDeployment :=
  ⟨rfl, by decide, by decide,
   (claim_C4_amended "app-1" [testOtherEvent, testReadyEvent]).2
     [testOtherEvent] testReadyEvent [] rfl
     (by intro x hx; rcases List.mem_singleton.mp hx with rfl; decide)
     (by decide)⟩

/-! ## Frame property of the spec duplicator (heap view) -/

/-- Claim C8, confirmed: `duplicate_deployment_config` never mutates its
input. Against the explicit object store, with the three object addresses of
the input allocated (below `nextAddr`), the post-call store holds its
metadata object (its `name`, its `labels` reference and its
`resource_version`), its labels dict, and its pod-template labels dict all
unchanged: every store of the source goes through the fresh addresses that
`copy.deepcopy` allocated. -/
theorem claim_C8 (s : PyState) (body : DeploymentObj) (t : String)
    (h1 : body.metaAddr < s.nextAddr)
    (h2 : (s.metaHeap body.metaAddr).labelsAddr < s.nextAddr)
    (h3 : body.tmplLabelsAddr < s.nextAddr) :
    (duplicate_deployment_config_heap s body t).2.metaHeap body.metaAddr
        = s.metaHeap body.metaAddr ∧
    (duplicate_deployment_config_heap s body t).2.dictHeap
        (s.metaHeap body.metaAddr).labelsAddr
        = s.dictHeap (s.metaHeap body.metaAddr).labelsAddr ∧
    (duplicate_deployment_config_heap s body t).2.dictHeap body.tmplLabelsAddr
        = s.dictHeap body.tmplLabelsAddr := by
  have n1 : body.metaAddr ≠ s.nextAddr := by omega
  have n2 : (s.metaHeap body.metaAddr).labelsAddr ≠ s.nextAddr := by omega
  have n3 : (s.metaHeap body.metaAddr).labelsAddr ≠ s.nextAddr + 1 := by omega
  have n4 : (s.metaHeap body.metaAddr).labelsAddr ≠ s.nextAddr + 2 := by omega
  have n5 : body.tmplLabelsAddr ≠ s.nextAddr := by omega
  have n6 : body.tmplLabelsAddr ≠ s.nextAddr + 1 := by omega
  have n7 : body.tmplLabelsAddr ≠ s.nextAddr + 2 := by omega
  refine ⟨?_, ?_, ?_⟩ <;>
    simp [duplicate_deployment_config_heap, heapUpdate,
      n1, n2, n3, n4, n5, n6, n7]

/-- Claim C8, witness: the frame property at the concrete three-address
store. -/
theorem claim_C8_witness :
    testDeploymentObj.metaAddr < testPyState.nextAddr ∧
    (testPyState.metaHeap testDeploymentObj.metaAddr).labelsAddr
        < testPyState.nextAddr ∧
    testDeploymentObj.tmplLabelsAddr < testPyState.nextAddr ∧
    (duplicate_deployment_config_heap testPyState testDeploymentObj
        "20191011134834").2.metaHeap testDeploymentObj.metaAddr
      = testPyState.metaHeap testDeploymentObj.metaAddr :=
  ⟨by decide, by decide, by decide,
   (claim_C8 testPyState testDeploymentObj "20191011134834" (by decide)
       (by decide) (by decide)).1⟩

/-! ## Uniqueness-validation lemmas -/

/-- Once the dict of the scan already holds the duplicate basename (bound to
`ename`), scanning any further prefix of pairwise-distinct, not-yet-seen
basenames still ends in the same error at `dep`. -/
theorem checkDeploymentsGo_reaches_dup (dep : Deployment)
    (rest : List Deployment) (ename : String) :
    ∀ (pre : List Deployment) (acc : List (String × String)),
    List.Pairwise (fun a b =>
      getDeploymentBaseName a.metadata.name
        ≠ getDeploymentBaseName b.metadata.name) pre →
    (∀ q ∈ pre, lookupLabel acc (getDeploymentBaseName q.metadata.name) = none) →
    lookupLabel acc (getDeploymentBaseName dep.metadata.name) = some ename →
    (∀ q ∈ pre, getDeploymentBaseName q.metadata.name
        ≠ getDeploymentBaseName dep.metadata.name) →
    checkDeploymentsGo (pre ++ dep :: rest) acc
      = .error (.basenameNotUnique dep.metadata.name
          (getDeploymentBaseName dep.metadata.name) ename)
  | [], acc, _, _, hfound, _ => by
    simp [checkDeploymentsGo, hfound]
  | q :: pre, acc, hpair, hnone, hfound, hnotin => by
    have hq : lookupLabel acc (getDeploymentBaseName q.metadata.name) = none :=
      hnone q (by simp)
    rw [List.cons_append]
    unfold checkDeploymentsGo
    rw [hq]
    have hpair2 := (List.pairwise_cons.mp hpair).2
    have hhead := (List.pairwise_cons.mp hpair).1
    apply checkDeploymentsGo_reaches_dup dep rest ename pre _ hpair2
    · intro p hp
      have hne : getDeploymentBaseName q.metadata.name
          ≠ getDeploymentBaseName p.metadata.name := hhead p hp
      simp [lookupLabel, hne, hnone p (by simp [hp])]
    · have hne : getDeploymentBaseName q.metadata.name
          ≠ getDeploymentBaseName dep.metadata.name := hnotin q (by simp)
      simp [lookupLabel, hne, hfound]
    · intro p hp
      exact hnotin p (by simp [hp])

/-- Scanning a duplicate-free prefix `pre` containing `d`, then `dep` whose
basename collides with `d`, errors at `dep` naming `d` as the existing
deployment. -/
theorem checkDeploymentsGo_first_dup (dep d : Deployment)
    (rest : List Deployment) :
    ∀ (pre : List Deployment) (acc : List (String × String)),
    List.Pairwise (fun a b =>
      getDeploymentBaseName a.metadata.name
        ≠ getDeploymentBaseName b.metadata.name) pre →
    (∀ q ∈ pre, lookupLabel acc (getDeploymentBaseName q.metadata.name) = none) →
    d ∈ pre →
    getDeploymentBaseName d.metadata.name
      = getDeploymentBaseName dep.metadata.name →
    checkDeploymentsGo (pre ++ dep :: rest) acc
      = .error (.basenameNotUnique dep.metadata.name
          (getDeploymentBaseName dep.metadata.name) d.metadata.name)
  | [], _, _, _, hd, _ => absurd hd (by simp)
  | q :: pre, acc, hpair, hnone, hd, hbase => by
    have hq : lookupLabel acc (getDeploymentBaseName q.metadata.name) = none :=
      hnone q (by simp)
    rw [List.cons_append]
    unfold checkDeploymentsGo
    rw [hq]
    have hpair2 := (List.pairwise_cons.mp hpair).2
    have hhead := (List.pairwise_cons.mp hpair).1
    rcases List.mem_cons.mp hd with rfl | hd
    · apply checkDeploymentsGo_reaches_dup dep rest d.metadata.name pre _ hpair2
      · intro p hp
        have hne : getDeploymentBaseName d.metadata.name
            ≠ getDeploymentBaseName p.metadata.name := hhead p hp
        simp [lookupLabel, hne, hnone p (by simp [hp])]
      · simp [lookupLabel, hbase]
      · intro p hp
        intro hcon
        exact hhead p hp (hbase.trans hcon.symm)
    · apply checkDeploymentsGo_first_dup dep d rest pre _ hpair2 _ hd hbase
      intro p hp
      have hne : getDeploymentBaseName q.metadata.name
          ≠ getDeploymentBaseName p.metadata.name := hhead p hp
      simp [lookupLabel, hne, hnone p (by simp [hp])]

/-- Claim C5, confirmed (validation part packaged with the
failure-before-mutation part below in `claim_C5`): `check_deployments` on a
list whose first basename duplicate is `dep` (its prefix `pre` is
duplicate-free and contains `d` with the same basename) raises
`K8sBasenameNotUniqueError` carrying the name of `dep`, the shared basename,
and the name of `d`. -/
theorem check_deployments_first_dup (pre : List Deployment) (dep d : Deployment)
    (rest : List Deployment)
    (hpair : List.Pairwise (fun a b =>
      getDeploymentBaseName a.metadata.name
        ≠ getDeploymentBaseName b.metadata.name) pre)
    (hd : d ∈ pre)
    (hbase : getDeploymentBaseName d.metadata.name
      = getDeploymentBaseName dep.metadata.name) :
    check_deployments (pre ++ dep :: rest)
      = .error (.basenameNotUnique dep.metadata.name
          (getDeploymentBaseName dep.metadata.name) d.metadata.name) :=
  checkDeploymentsGo_first_dup dep d rest pre [] hpair
    (by intro q _; rfl) hd hbase

/-- Claim C5, confirmed: with the discovered deployments containing a first
basename duplicate — a duplicate-free prefix `pre` containing `d`, then `dep`
with the basename of `d` — validation raises `K8sBasenameNotUniqueError` at `dep`
(in input order) naming `d`, `trigger_smart_rollout` ends with that very
error, and its trace contains zero create, patch, or delete calls. -/
theorem claim_C5 (m : ModuleState) (sel : String) (pre : List Deployment)
    (dep d : Deployment) (rest : List Deployment) (svcs : List Service)
    (cleanup : Bool)
    (hpair : List.Pairwise (fun a b =>
      getDeploymentBaseName a.metadata.name
        ≠ getDeploymentBaseName b.metadata.name) pre)
    (hd : d ∈ pre)
    (hbase : getDeploymentBaseName d.metadata.name
      = getDeploymentBaseName dep.metadata.name) :
    check_deployments (pre ++ dep :: rest)
        = .error (.basenameNotUnique dep.metadata.name
            (getDeploymentBaseName dep.metadata.name) d.metadata.name) ∧
    (trigger_smart_rollout m sel (pre ++ dep :: rest) svcs cleanup).1
        = .error (.basenameNotUnique dep.metadata.name
            (getDeploymentBaseName dep.metadata.name) d.metadata.name) ∧
    ∀ c ∈ (trigger_smart_rollout m sel (pre ++ dep :: rest) svcs cleanup).2,
      isMutatingCall c = false := by
  have hchk := check_deployments_first_dup pre dep d rest hpair hd hbase
  have hlen : ¬ ((pre ++ dep :: rest).length < 1) := by
    simp only [List.length_append, List.length_cons]
    omega
  refine ⟨hchk, ?_, ?_⟩ <;>
    simp [trigger_smart_rollout, get_namespaced_deployments, hlen, hchk,
      isMutatingCall]

/-- Claim C5, witness: the theorem applied at two concrete deployments
`app-1` and `app-2` sharing the basename `app`. -/
theorem claim_C5_witness :
    testDeployment ∈ [testDeployment] ∧
    getDeploymentBaseName testDeployment.metadata.name
        = getDeploymentBaseName testDeployment2.metadata.name ∧
    check_deployments ([testDeployment] ++ testDeployment2 :: [])
        = .error (.basenameNotUnique testDeployment2.metadata.name
            (getDeploymentBaseName testDeployment2.metadata.name)
            testDeployment.metadata.name) ∧
    (trigger_smart_rollout { loadTimeDefault := 100 } "app=myapp"
        ([testDeployment] ++ testDeployment2 :: []) [testService] true).1
        = .error (.basenameNotUnique testDeployment2.metadata.name
            (getDeploymentBaseName testDeployment2.metadata.name)
            testDeployment.metadata.name) :=
  ⟨by simp, by decide,
   (claim_C5 { loadTimeDefault := 100 } "app=myapp" [testDeployment]
      testDeployment2 testDeployment [] [testService] true
      (by simp) (by simp) (by decide)).1,
   (claim_C5 { loadTimeDefault := 100 } "app=myapp" [testDeployment]
      testDeployment2 testDeployment [] [testService] true
      (by simp) (by simp) (by decide)).2.1⟩

/-! ## Call-trace lemmas for the smart rollout -/

theorem option_map_eq_some_true {α : Type} (f : α → Bool) (o : Option α)
    (h : o.map f = some true) : ∃ a, o = some a ∧ f a = true := by
  cases o with
  | none => cases h
  | some a => exact ⟨a, rfl, by simpa using h⟩

/-- In a trace `l1 ++ l2` where `P`-calls occur only in `l1` and `Q`-calls
only in `l2`, every `P`-index precedes every `Q`-index. -/
theorem index_lt_of_segments {α : Type} (l1 l2 : List α) (P Q : α → Bool)
    (h1 : ∀ c ∈ l2, P c = false) (h2 : ∀ c ∈ l1, Q c = false)
    (i j : Nat)
    (hi : ((l1 ++ l2).get? i).map P = some true)
    (hj : ((l1 ++ l2).get? j).map Q = some true) : i < j := by
  obtain ⟨ci, hci, hPi⟩ := option_map_eq_some_true P _ hi
  obtain ⟨cj, hcj, hQj⟩ := option_map_eq_some_true Q _ hj
  have hilt : i < l1.length := by
    by_contra hge
    push_neg at hge
    rw [List.get?_append_right hge] at hci
    have hmem : ci ∈ l2 := List.get?_mem hci
    rw [h1 ci hmem] at hPi
    cases hPi
  have hjge : l1.length ≤ j := by
    by_contra hlt
    push_neg at hlt
    rw [List.get?_append hlt] at hcj
    have hmem : cj ∈ l1 := List.get?_mem hcj
    rw [h2 cj hmem] at hQj
    cases hQj
  omega

theorem rolloutCreateLoop_calls (deps : List Deployment) (ts : String) :
    ∀ c ∈ rolloutCreateLoop deps ts,
      isCreateCall c = true ∨ isWatchCall c = true := by
  intro c hc
  unfold rolloutCreateLoop at hc
  rw [List.mem_flatMap] at hc
  obtain ⟨dep, _, hc⟩ := hc
  rcases List.mem_cons.mp hc with rfl | hc
  · exact Or.inl rfl
  · rcases List.mem_singleton.mp hc with rfl
    exact Or.inr rfl

theorem rolloutPatchLoop_calls (svcs world : List Service) (ts : String) :
    ∀ c ∈ (rolloutPatchLoop svcs world ts).2, isPatchServiceCall c = true := by
  induction svcs with
  | nil =>
    intro c hc
    simp [rolloutPatchLoop] at hc
  | cons svc rest ih =>
    intro c hc
    unfold rolloutPatchLoop at hc
    cases hp : patch_namespaced_service svc.metadata.name ts world with
    | error e =>
      rw [hp] at hc
      simp at hc
    | ok sres =>
      rw [hp] at hc
      simp at hc
      rcases hc with rfl | hc
      · rfl
      · exact ih c hc

/-- Every call issued before the service listing — the deployment listing,
the creates, and the watches — is neither a service patch nor a delete. -/
theorem preSvcTrace_no_patch_no_delete (sel : String) (deps : List Deployment)
    (ts : String) :
    ∀ c ∈ Call.listDeployments sel ::
        rolloutCreateLoop deps ts ++ [Call.listServices sel],
      isPatchServiceCall c = false ∧ isDeleteCall c = false := by
  intro c hc
  rcases List.mem_cons.mp hc with rfl | hc
  · exact ⟨rfl, rfl⟩
  rcases List.mem_append.mp hc with hc | hc
  · rcases rolloutCreateLoop_calls deps ts c hc with h | h
    · cases c <;> simp_all [isCreateCall, isPatchServiceCall, isDeleteCall]
    · cases c <;> simp_all [isWatchCall, isPatchServiceCall, isDeleteCall]
  · rcases List.mem_singleton.mp hc with rfl
    exact ⟨rfl, rfl⟩

theorem get_namespaced_deployments_ok (sel : String)
    (matching l : List Deployment)
    (h : get_namespaced_deployments sel matching = .ok l) : l = matching := by
  unfold get_namespaced_deployments at h
  by_cases hl : matching.length < 1
  · rw [if_pos hl] at h
    cases h
  · rw [if_neg hl] at h
    cases h
    rfl

/-- Every trace of `trigger_smart_rollout` is either the bare deployment
listing (listing or validation failed) or the pre-service segment followed by
service patches followed by a tail that is empty or — only when `cleanup` —
the deletes of the originally discovered deployments. -/
theorem trigger_trace_shape (m : ModuleState) (sel : String)
    (deps : List Deployment) (svcs : List Service) (cleanup : Bool) :
    (trigger_smart_rollout m sel deps svcs cleanup).2
        = [Call.listDeployments sel] ∨
    ∃ patchPart tail,
      (trigger_smart_rollout m sel deps svcs cleanup).2
          = (Call.listDeployments sel ::
              rolloutCreateLoop deps (getSimpleTimestamp m none) ++
                [Call.listServices sel]) ++ patchPart ++ tail ∧
      (∀ c ∈ patchPart, isPatchServiceCall c = true) ∧
      (tail = [] ∨ (cleanup = true ∧
        tail = deps.map fun dep => Call.deleteDeployment dep.metadata.name)) := by
  simp only [trigger_smart_rollout]
  cases hg : get_namespaced_deployments sel deps with
  | error e => simp
  | ok deps2 =>
    have hdeps := get_namespaced_deployments_ok sel deps deps2 hg
    subst hdeps
    dsimp only
    cases hchk : check_deployments deps2 with
    | error e => simp
    | ok u =>
      dsimp only
      cases hsvc : get_namespaced_services sel svcs with
      | error e =>
        refine Or.inr ⟨[], [], by simp, by simp, Or.inl rfl⟩
      | ok svcs2 =>
        dsimp only
        cases hp : (rolloutPatchLoop svcs2 svcs2 (getSimpleTimestamp m none)).1 with
        | error e =>
          exact Or.inr ⟨(rolloutPatchLoop svcs2 svcs2
              (getSimpleTimestamp m none)).2, [], by simp,
            rolloutPatchLoop_calls svcs2 svcs2 (getSimpleTimestamp m none),
            Or.inl rfl⟩
        | ok u2 =>
          cases cleanup with
          | true =>
            exact Or.inr ⟨(rolloutPatchLoop svcs2 svcs2
                (getSimpleTimestamp m none)).2,
              deps2.map fun dep => Call.deleteDeployment dep.metadata.name,
              by simp,
              rolloutPatchLoop_calls svcs2 svcs2 (getSimpleTimestamp m none),
              Or.inr ⟨rfl, rfl⟩⟩
          | false =>
            exact Or.inr ⟨(rolloutPatchLoop svcs2 svcs2
                (getSimpleTimestamp m none)).2, [], by simp,
              rolloutPatchLoop_calls svcs2 svcs2 (getSimpleTimestamp m none),
              Or.inl rfl⟩

/-- The trace splits into a patch-free head and a watch-free tail. -/
theorem trigger_watch_patch_split (m : ModuleState) (sel : String)
    (deps : List Deployment) (svcs : List Service) (cleanup : Bool) :
    ∃ l1 l2, (trigger_smart_rollout m sel deps svcs cleanup).2 = l1 ++ l2 ∧
      (∀ c ∈ l1, isPatchServiceCall c = false) ∧
      (∀ c ∈ l2, isWatchCall c = false) := by
  rcases trigger_trace_shape m sel deps svcs cleanup with
    h | ⟨pp, tail, h, hpp, htail⟩
  · exact ⟨[Call.listDeployments sel], [], h, by simp [isPatchServiceCall],
      by simp⟩
  · refine ⟨_, pp ++ tail, by rw [h, List.append_assoc],
      fun c hc => (preSvcTrace_no_patch_no_delete sel deps _ c hc).1, ?_⟩
    intro c hc
    rcases List.mem_append.mp hc with hc | hc
    · have hpc := hpp c hc
      cases c <;> simp_all [isPatchServiceCall, isWatchCall]
    · rcases htail with rfl | ⟨_, rfl⟩
      · simp at hc
      · rw [List.mem_map] at hc
        obtain ⟨dep, _, rfl⟩ := hc
        rfl

/-- The trace splits into a delete-free head and a patch-free tail. -/
theorem trigger_patch_delete_split (m : ModuleState) (sel : String)
    (deps : List Deployment) (svcs : List Service) (cleanup : Bool) :
    ∃ l1 l2, (trigger_smart_rollout m sel deps svcs cleanup).2 = l1 ++ l2 ∧
      (∀ c ∈ l1, isDeleteCall c = false) ∧
      (∀ c ∈ l2, isPatchServiceCall c = false) := by
  rcases trigger_trace_shape m sel deps svcs cleanup with
    h | ⟨pp, tail, h, hpp, htail⟩
  · exact ⟨[Call.listDeployments sel], [], h, by simp [isDeleteCall], by simp⟩
  · refine ⟨_, tail, h, ?_, ?_⟩
    · intro c hc
      rcases List.mem_append.mp hc with hc | hc
      · exact (preSvcTrace_no_patch_no_delete sel deps _ c hc).2
      · have hpc := hpp c hc
        cases c <;> simp_all [isPatchServiceCall, isDeleteCall]
    · intro c hc
      rcases htail with rfl | ⟨_, rfl⟩
      · simp at hc
      · rw [List.mem_map] at hc
        obtain ⟨dep, _, rfl⟩ := hc
        rfl

/-- A successful run with `cleanup` ends its trace with the deletes of every
originally discovered deployment. -/
theorem trigger_success_cleanup_trace (m : ModuleState) (sel : String)
    (deps : List Deployment) (svcs : List Service)
    (h : (trigger_smart_rollout m sel deps svcs true).1 = .ok ()) :
    ∃ l1, (trigger_smart_rollout m sel deps svcs true).2
      = l1 ++ deps.map fun dep => Call.deleteDeployment dep.metadata.name := by
  simp only [trigger_smart_rollout] at h ⊢
  cases hg : get_namespaced_deployments sel deps with
  | error e =>
    rw [hg] at h
    simp at h
  | ok deps2 =>
    have hdeps := get_namespaced_deployments_ok sel deps deps2 hg
    subst hdeps
    rw [hg] at h
    dsimp only at h ⊢
    cases hchk : check_deployments deps2 with
    | error e =>
      rw [hchk] at h
      simp at h
    | ok u =>
      rw [hchk] at h
      dsimp only at h ⊢
      cases hsvc : get_namespaced_services sel svcs with
      | error e =>
        rw [hsvc] at h
        simp at h
      | ok svcs2 =>
        rw [hsvc] at h
        dsimp only at h ⊢
        cases hp : (rolloutPatchLoop svcs2 svcs2 (getSimpleTimestamp m none)).1 with
        | error e =>
          rw [hp] at h
          simp at h
        | ok u2 =>
          exact ⟨_, rfl⟩

/-- Claim C6, confirmed: in every execution of `trigger_smart_rollout`, every
completed watch of a duplicated deployment precedes — strictly, by trace
position — every `patch_namespaced_service` cutover call: watches happen only
in the per-deployment create-and-wait loop, which the source finishes before
entering the service-patch loop. -/
theorem claim_C6 (m : ModuleState) (sel : String) (deps : List Deployment)
    (svcs : List Service) (cleanup : Bool) (i j : Nat)
    (hw : (((trigger_smart_rollout m sel deps svcs cleanup).2).get? i).map
        isWatchCall = some true)
    (hp : (((trigger_smart_rollout m sel deps svcs cleanup).2).get? j).map
        isPatchServiceCall = some true) :
    i < j := by
  obtain ⟨l1, l2, heq, hnp, hnw⟩ :=
    trigger_watch_patch_split m sel deps svcs cleanup
  rw [heq] at hw hp
  exact index_lt_of_segments l1 l2 isWatchCall isPatchServiceCall
    hnw hnp i j hw hp

/-- Claim C6, witness: in the concrete one-deployment one-service run, the
watch at position 2 precedes the patch at position 4. -/
theorem claim_C6_witness :
    (((trigger_smart_rollout { loadTimeDefault := 100 } "app=myapp"
        [testDeployment] [testService] true).2).get? 2).map isWatchCall
      = some true ∧
    (((trigger_smart_rollout { loadTimeDefault := 100 } "app=myapp"
        [testDeployment] [testService] true).2).get? 4).map isPatchServiceCall
      = some true ∧
    2 < 4 :=
  ⟨by decide, by decide,
   claim_C6 { loadTimeDefault := 100 } "app=myapp" [testDeployment]
     [testService] true 2 4 (by decide) (by decide)⟩

/-- Claim C9, confirmed: in a successful `trigger_smart_rollout` run with
`cleanup = true`, every originally discovered deployment is deleted by its
exact name, and (in any run) every delete comes after every service patch; a
run with `cleanup = false` issues no delete at all, so old and new
deployments remain side by side. -/
theorem claim_C9 (m : ModuleState) (sel : String) (deps : List Deployment)
    (svcs : List Service) :
    ((trigger_smart_rollout m sel deps svcs true).1 = .ok () →
      ∀ dep ∈ deps, Call.deleteDeployment dep.metadata.name
        ∈ (trigger_smart_rollout m sel deps svcs true).2) ∧
    (∀ i j,
      (((trigger_smart_rollout m sel deps svcs true).2).get? i).map
          isPatchServiceCall = some true →
      (((trigger_smart_rollout m sel deps svcs true).2).get? j).map
          isDeleteCall = some true →
      i < j) ∧
    (∀ c ∈ (trigger_smart_rollout m sel deps svcs false).2,
      isDeleteCall c = false) := by
  refine ⟨?_, ?_, ?_⟩
  · intro h dep hdep
    obtain ⟨l1, hl1⟩ := trigger_success_cleanup_trace m sel deps svcs h
    rw [hl1]
    exact List.mem_append_right _ (List.mem_map_of_mem _ hdep)
  · intro i j hi hj
    obtain ⟨l1, l2, heq, hnd, hnp⟩ :=
      trigger_patch_delete_split m sel deps svcs true
    rw [heq] at hi hj
    exact index_lt_of_segments l1 l2 isPatchServiceCall isDeleteCall
      hnp hnd i j hi hj
  · intro c hc
    rcases trigger_trace_shape m sel deps svcs false with
      h | ⟨pp, tail, h, hpp, htail⟩
    · rw [h] at hc
      rcases List.mem_singleton.mp hc with rfl
      rfl
    · rcases htail with rfl | ⟨hcon, _⟩
      · rw [h] at hc
        simp only [List.append_nil] at hc
        rcases List.mem_append.mp hc with hc | hc
        · exact (preSvcTrace_no_patch_no_delete sel deps _ c hc).2
        · have hpc := hpp c hc
          cases c <;> simp_all [isPatchServiceCall, isDeleteCall]
      · cases hcon

/-- Claim C9, witness: the concrete one-deployment one-service run with
cleanup succeeds and its trace deletes `app-1`. -/
theorem claim_C9_witness :
    (trigger_smart_rollout { loadTimeDefault := 100 } "app=myapp"
        [testDeployment] [testService] true).1 = .ok () ∧
    testDeployment ∈ [testDeployment] ∧
    Call.deleteDeployment testDeployment.metadata.name ∈
      (trigger_smart_rollout { loadTimeDefault := 100 } "app=myapp"
        [testDeployment] [testService] true).2 :=
  ⟨by decide, by simp,
   (claim_C9 { loadTimeDefault := 100 } "app=myapp" [testDeployment]
       [testService]).1 (by decide) testDeployment (by simp)⟩

/-- Claim C1, counterexample: services are not discovered in step 1.
With one deployment under the selector and no matching service,
`trigger_smart_rollout` does raise `K8sServiceNotFoundError` — but only at
line 447, after the create-and-watch loop, so a create call is already in the
trace when the error is raised, contradicting "no create/patch/delete call
has been issued when the error is raised". -/
theorem claim_C1_counterexample :
    (trigger_smart_rollout { loadTimeDefault := 100 } "app=myapp"
        [testDeployment] [] true).1 = .error (.serviceNotFound "app=myapp") ∧
    Call.createDeployment ("app-" ++ Nat.repr 100) ∈
      (trigger_smart_rollout { loadTimeDefault := 100 } "app=myapp"
        [testDeployment] [] true).2 := by decide

/-- Claim C1, amended: only the replica-sets are discovered before any
mutating call — an empty replica-set result fails fast with
`K8sDeploymentNotFoundError` and a mutation-free trace; the services are
discovered only after every duplicate has been created and watched, so when
no service matches the selector the run fails with `K8sServiceNotFoundError`
after one create call per discovered replica-set has already been issued
(though still before any patch or delete). -/
theorem claim_C1_amended (m : ModuleState) (sel : String)
    (deps : List Deployment) (svcs : List Service) (cleanup : Bool) :
    (deps = [] →
      (trigger_smart_rollout m sel deps svcs cleanup).1
          = .error (.deploymentNotFound sel) ∧
      ∀ c ∈ (trigger_smart_rollout m sel deps svcs cleanup).2,
        isMutatingCall c = false) ∧
    (deps ≠ [] → check_deployments deps = .ok () → svcs = [] →
      (trigger_smart_rollout m sel deps svcs cleanup).1
          = .error (.serviceNotFound sel) ∧
      (∀ c ∈ (trigger_smart_rollout m sel deps svcs cleanup).2,
        isPatchServiceCall c = false ∧ isDeleteCall c = false) ∧
      ∀ dep ∈ deps,
        Call.createDeployment
            (duplicate_deployment_config dep
              (getSimpleTimestamp m none)).metadata.name
          ∈ (trigger_smart_rollout m sel deps svcs cleanup).2) := by
  constructor
  · rintro rfl
    refine ⟨?_, ?_⟩ <;>
      simp [trigger_smart_rollout, get_namespaced_deployments, isMutatingCall]
  · intro hne hchk hsv
    subst hsv
    have hlen : ¬ (deps.length < 1) := by
      cases deps with
      | nil => exact absurd rfl hne
      | cons a l => simp
    have htr : trigger_smart_rollout m sel deps [] cleanup
        = (.error (.serviceNotFound sel),
           Call.listDeployments sel ::
             rolloutCreateLoop deps (getSimpleTimestamp m none) ++
               [Call.listServices sel]) := by
      simp [trigger_smart_rollout, get_namespaced_deployments, hlen, hchk,
        get_namespaced_services]
    rw [htr]
    refine ⟨rfl, preSvcTrace_no_patch_no_delete sel deps _, ?_⟩
    intro dep hdep
    apply List.mem_cons_of_mem
    apply List.mem_append_left
    unfold rolloutCreateLoop
    rw [List.mem_flatMap]
    exact ⟨dep, hdep, by simp⟩

/-- Claim C1, witness: both amended parts at concrete inputs — an empty
deployment list fails fast with a mutation-free trace, and a present
deployment with no services fails with `K8sServiceNotFoundError` after its
create call. -/
theorem claim_C1_witness :
    (([] : List Deployment) = [] ∧
      (trigger_smart_rollout { loadTimeDefault := 100 } "app=myapp" []
          [testService] true).1 = .error (.deploymentNotFound "app=myapp")) ∧
    (([testDeployment] : List Deployment) ≠ [] ∧
      check_deployments [testDeployment] = .ok () ∧
      (([] : List Service) = []) ∧
      Call.createDeployment
          (duplicate_deployment_config testDeployment
            (getSimpleTimestamp { loadTimeDefault := 100 } none)).metadata.name
        ∈ (trigger_smart_rollout { loadTimeDefault := 100 } "app=myapp"
            [testDeployment] [] true).2) :=
  ⟨⟨rfl, (claim_C1_amended { loadTimeDefault := 100 } "app=myapp" []
      [testService] true).1 rfl |>.1⟩,
   ⟨by simp, by decide, rfl,
    ((claim_C1_amended { loadTimeDefault := 100 } "app=myapp" [testDeployment]
        [] true).2 (by simp) (by decide) rfl).2.2 testDeployment (by simp)⟩⟩
